import Mathlib

/-!
Verification development for the Gorgias MCP server (a multi-tenant adapter that
exposes the Gorgias helpdesk REST API as MCP tools).

The definitions below are shallow embeddings of the TypeScript sources:
credential extraction and validation (types/env.ts), the worker request router
(index.ts), the upstream client request path and its wire-to-internal field
mapping (client.ts), pagination helpers (utils/pagination.ts), and the response
formatter (utils/formatters.ts).  JavaScript platform primitives (JSON.parse,
JSON.stringify, Date, fetch) are modelled explicitly or taken as parameters.
The error classes of utils/errors.ts are not part of the sources at hand; the
few facts needed about them (the retryable flags, the logging record) are
modelled from the specification and marked as such.
-/

namespace GorgiasSpec

/-- JavaScript truthiness of an optional string value: undefined and the empty
string are falsy. -/
def strTruthy : Option String → Bool
  | none => false
  | some s => !s.isEmpty

/-- JavaScript truthiness of an optional number: undefined and 0 are falsy. -/
def numTruthy : Option Int → Bool
  | none => false
  | some v => v != 0

/-- JavaScript string fallback x || d with falsy undefined and empty string. -/
def strOr (x : Option String) (d : String) : String :=
  match x with
  | some s => if s.isEmpty then d else s
  | none => d

/-- JavaScript number fallback x || d with falsy undefined and 0. -/
def numOrDefault (x : Option Int) (d : Int) : Int :=
  match x with
  | none => d
  | some v => if v = 0 then d else v

-- =============================================================================
-- Credentials: parseGorgiasCredentials / validateGorgiasCredentials (types/env.ts)
-- =============================================================================

/-- Partial credential triple, as produced by header extraction; an absent
header leaves the field unset (source type: Partial of GorgiasCredentials). -/
structure PartialCredentials where
  domain : Option String
  email : Option String
  apiKey : Option String
deriving DecidableEq, Repr

/-- Bag of inbound HTTP request headers; get is name lookup, with none for an
absent header (standing in for the Fetch API Headers object). -/
structure RequestHeaders where
  entries : List (String × String)
deriving DecidableEq, Repr

/-- Header lookup. -/
def RequestHeaders.get (h : RequestHeaders) (name : String) : Option String :=
  h.entries.lookup name

/-- The x || undefined collapse used on each header value: an absent or empty
header becomes undefined. -/
def orUndefined : Option String → Option String
  | some s => if s.isEmpty then none else some s
  | none => none

/-- Source parseGorgiasCredentials (types/env.ts): pull the three tenant
headers out of the request; each value goes through the x || undefined
collapse, so an absent or empty header leaves the field unset. -/
def parseGorgiasCredentials (h : RequestHeaders) : PartialCredentials where
  domain := orUndefined (h.get "X-Gorgias-Domain")
  email := orUndefined (h.get "X-Gorgias-Email")
  apiKey := orUndefined (h.get "X-Gorgias-API-Key")

/-- The list of missing header names accumulated by validateGorgiasCredentials
(types/env.ts), in source order: domain, then email, then apiKey; a member is
missing when it is JS-falsy (unset or empty). -/
def missingHeaders (c : PartialCredentials) : List String :=
  (if !strTruthy c.domain then ["X-Gorgias-Domain"] else []) ++
  (if !strTruthy c.email then ["X-Gorgias-Email"] else []) ++
  (if !strTruthy c.apiKey then ["X-Gorgias-API-Key"] else [])

/-- Source validateGorgiasCredentials (types/env.ts): succeed when no member is
missing, otherwise throw an Error whose message joins the missing header names
with a comma. -/
def validateGorgiasCredentials (c : PartialCredentials) : Except String Unit :=
  let missing := missingHeaders c
  if missing.length > 0 then
    Except.error ("Missing required headers: " ++ String.intercalate ", " missing)
  else
    Except.ok ()

-- =============================================================================
-- Request router, /mcp POST branch (index.ts fetch handler)
-- =============================================================================

/-- Outcome of the /mcp POST branch of the worker fetch handler: either the
early 401 response produced before any server is built, or dispatch to a
freshly constructed client + tool catalog + protocol server. -/
inductive McpRouteOutcome where
  | unauthorized (status : Nat) (error : String) (message : String)
      (requiredHeaders : List String)
  | dispatch (credentials : PartialCredentials)
deriving DecidableEq, Repr

/-- Source index.ts, /mcp POST branch: parse credentials from the headers,
validate them, answer HTTP 401 with the required-header list on failure, and
only otherwise build the stateless server and hand the request to the protocol
runtime (the dispatch constructor). -/
def mcpRoute (h : RequestHeaders) : McpRouteOutcome :=
  let credentials := parseGorgiasCredentials h
  match validateGorgiasCredentials credentials with
  | Except.error msg =>
      McpRouteOutcome.unauthorized 401 "Unauthorized" msg
        ["X-Gorgias-Domain", "X-Gorgias-Email", "X-Gorgias-API-Key"]
  | Except.ok _ => McpRouteOutcome.dispatch credentials

-- =============================================================================
-- Pagination (utils/pagination.ts) and the list-tool limit schema
-- =============================================================================

/-- Pagination parameters accepted by the client list operations. -/
structure PaginationParams where
  limit : Option Int
  cursor : Option String
deriving DecidableEq, Repr

/-- Normalized pagination parameters (limit always set). -/
structure NormalizedPagination where
  limit : Int
  cursor : Option String
deriving DecidableEq, Repr

/-- Source normalizePaginationParams (utils/pagination.ts): limit is
Math.min(params?.limit || 20, maxLimit) and the cursor passes through.  The
defaults object fixes maxLimit = 100.  (This helper is exported but has no
caller anywhere in the repository.) -/
def normalizePaginationParams (params : Option PaginationParams) (maxLimit : Int) :
    NormalizedPagination where
  limit := min (numOrDefault (params.bind (·.limit)) 20) maxLimit
  cursor := params.bind (·.cursor)

/-- The limit input schema shared by every paginated list tool
(z.number().int().min(1).max(100)): an integer argument is accepted exactly
when it lies in [1, 100]; anything else fails schema validation and the tool
call is rejected before the handler runs. -/
def listLimitSchemaAccepts (n : Int) : Bool :=
  decide (1 ≤ n) && decide (n ≤ 100)

/-- Parameters of listCustomers (client.ts). -/
structure CustomerListParams where
  limit : Option Int
  cursor : Option String
  email : Option String
deriving DecidableEq, Repr

/-- Source GorgiasClientImpl.listCustomers query construction (client.ts):
each JS-truthy parameter is forwarded verbatim (limit stringified); nothing is
clamped here. -/
def listCustomersQuery (params : Option CustomerListParams) : List (String × String) :=
  let l := params.bind (·.limit)
  let c := params.bind (·.cursor)
  let e := params.bind (·.email)
  (if numTruthy l then [("limit", toString (l.getD 0))] else []) ++
  (if strTruthy c then [("cursor", c.getD "")] else []) ++
  (if strTruthy e then [("email", e.getD "")] else [])

-- =============================================================================
-- Upstream request path: status classification (client.ts, GorgiasClientImpl.request)
-- =============================================================================

/-- Gorgias error values thrown by the request path.  The classes themselves
live in utils/errors.ts, which is not among the sources at hand; the payload of
each constructor is read off the throw sites in client.ts (message, the
Retry-After seconds for the rate-limit error, the numeric status for the
generic API error).  A retryAfterSeconds of none models the NaN produced when
parseInt finds no digits. -/
inductive GorgiasFailure where
  | rateLimitFailure (message : String) (retryAfterSeconds : Option Int)
  | authFailure (message : String)
  | apiFailure (message : String) (status : Nat)
deriving DecidableEq, Repr

/-- Modelled from the spec: utils/errors.ts (the error class definitions) is
missing from the sources; section 4.4 and section 7 of the spec state that the
rate-limit failure is the only transient, retryable one in the taxonomy. -/
def GorgiasFailure.retryable : GorgiasFailure → Bool
  | .rateLimitFailure _ _ => true
  | .authFailure _ => false
  | .apiFailure _ _ => false

/-- Message carried by a failure value. -/
def GorgiasFailure.messageOf : GorgiasFailure → String
  | .rateLimitFailure m _ => m
  | .authFailure m => m
  | .apiFailure m _ => m

/-- Model of parseInt(s, 10): skip leading whitespace, take an optional sign
and then the longest leading run of decimal digits; none models NaN (no
digits found). -/
def jsParseInt (s : String) : Option Int :=
  let cs := s.toList.dropWhile (fun c => c == ' ' || c == '\t' || c == '\n' || c == '\r')
  let signAndRest : Bool × List Char :=
    match cs with
    | '-' :: rest => (true, rest)
    | '+' :: rest => (false, rest)
    | _ => (false, cs)
  let ds := signAndRest.2.takeWhile (fun c => c.isDigit)
  if ds.isEmpty then none
  else
    let magnitude : Nat := ds.foldl (fun a c => a * 10 + (c.toNat - 48)) 0
    some (if signAndRest.1 then -(magnitude : Int) else (magnitude : Int))

/-- Outcome of JSON.parse (a platform primitive) on a non-2xx response body:
unparseable covers invalid JSON and values whose member access itself throws
inside the try (for example the null produced by the body "null"); parsed
carries the optional message and error string fields of a parsed object (a
parsed non-object value has neither, which the fallback chain treats the same
as parsed none none). -/
inductive ErrorBody where
  | unparseable
  | parsed (message : Option String) (errorField : Option String)
deriving DecidableEq, Repr

/-- Source client.ts error-message extraction for a non-2xx response:
errorJson.message, else errorJson.error, else the fallback API error string with JS
falsiness, defaulting when the body is not parseable. -/
def extractApiErrorMessage (body : ErrorBody) (status : Nat) : String :=
  let fallback := "API error: " ++ toString status
  match body with
  | .unparseable => fallback
  | .parsed m e => strOr m (strOr e fallback)

/-- Verdict of the single upstream request path on an HTTP response, before
any body decoding on the success path. -/
inductive RequestVerdict where
  | failure (e : GorgiasFailure)
  | successNoBody
  | successJson
deriving DecidableEq, Repr

/-- Source GorgiasClientImpl.request (client.ts): classify the response status
in source order — 429 first (Retry-After parsed as seconds, 60 when the header
is JS-falsy), then 401 or 403, then any other status outside 200..299, then
204 as the bodyless success, then the JSON success path.  retryAfterHeader is
the value of response.headers.get("Retry-After"); body is the parse outcome of
the error body text. -/
def classifyResponse (status : Nat) (retryAfterHeader : Option String)
    (body : ErrorBody) : RequestVerdict :=
  if status = 429 then
    RequestVerdict.failure (.rateLimitFailure "Rate limit exceeded"
      (match retryAfterHeader with
       | some s => if s.isEmpty then some 60 else jsParseInt s
       | none => some 60))
  else if status = 401 ∨ status = 403 then
    RequestVerdict.failure
      (.authFailure "Authentication failed. Check your Gorgias credentials.")
  else if ¬(200 ≤ status ∧ status ≤ 299) then
    RequestVerdict.failure (.apiFailure (extractApiErrorMessage body status) status)
  else if status = 204 then
    RequestVerdict.successNoBody
  else
    RequestVerdict.successJson

-- =============================================================================
-- Tickets: wire shape, internal shape, mapTicket, list mapping (client.ts)
-- =============================================================================

/-- Embedded reference stub {id, email, name} used for customers, users and
assignees. -/
structure PersonRef where
  id : Nat
  email : Option String
  name : Option String
deriving DecidableEq, Repr

/-- Embedded reference stub {id, name} used for teams and tags. -/
structure NamedRef where
  id : Nat
  name : String
deriving DecidableEq, Repr

/-- Wire shape of a ticket (interface RawTicket, client.ts): flat record with
snake_case field names; closed string unions are modelled as strings. -/
structure RawTicket where
  id : Nat
  external_id : Option String
  subject : Option String
  status : String
  priority : Option String
  channel : String
  via : String
  from_agent : Bool
  customer : Option PersonRef
  assignee_user : Option PersonRef
  assignee_team : Option NamedRef
  messages_count : Nat
  is_unread : Bool
  spam : Option String
  created_datetime : String
  updated_datetime : String
  opened_datetime : Option String
  closed_datetime : Option String
  last_received_message_datetime : Option String
  last_message_datetime : Option String
  snooze_datetime : Option String
  tags : List NamedRef
  uri : String
deriving DecidableEq, Repr

/-- Internal shape of a ticket (interface GorgiasTicket, types/entities.ts):
camelCase field names, same nullability. -/
structure GorgiasTicket where
  id : Nat
  externalId : Option String
  subject : Option String
  status : String
  priority : Option String
  channel : String
  via : String
  fromAgent : Bool
  customer : Option PersonRef
  assigneeUser : Option PersonRef
  assigneeTeam : Option NamedRef
  messagesCount : Nat
  isUnread : Bool
  spamStatus : Option String
  createdDatetime : String
  updatedDatetime : String
  openedDatetime : Option String
  closedDatetime : Option String
  lastReceivedMessageDatetime : Option String
  lastMessageDatetime : Option String
  snoozeUntilDatetime : Option String
  tags : List NamedRef
  uri : String
deriving DecidableEq, Repr

/-- Source mapTicket (client.ts): the pure, stateless wire-to-internal field
rename for tickets. -/
def mapTicket (raw : RawTicket) : GorgiasTicket where
  id := raw.id
  externalId := raw.external_id
  subject := raw.subject
  status := raw.status
  priority := raw.priority
  channel := raw.channel
  via := raw.via
  fromAgent := raw.from_agent
  customer := raw.customer
  assigneeUser := raw.assignee_user
  assigneeTeam := raw.assignee_team
  messagesCount := raw.messages_count
  isUnread := raw.is_unread
  spamStatus := raw.spam
  createdDatetime := raw.created_datetime
  updatedDatetime := raw.updated_datetime
  openedDatetime := raw.opened_datetime
  closedDatetime := raw.closed_datetime
  lastReceivedMessageDatetime := raw.last_received_message_datetime
  lastMessageDatetime := raw.last_message_datetime
  snoozeUntilDatetime := raw.snooze_datetime
  tags := raw.tags
  uri := raw.uri

/-- Meta object of the upstream list envelope (meta.next_cursor). -/
structure GorgiasListMeta where
  next_cursor : Option String
deriving DecidableEq, Repr

/-- Upstream list envelope (interface GorgiasListResponse, client.ts):
{data, meta?}. -/
structure GorgiasListResponse (α : Type) where
  data : List α
  meta : Option GorgiasListMeta
deriving DecidableEq, Repr

/-- Internal paginated result {items, nextCursor}
(interface PaginatedResponse, types/entities.ts). -/
structure PaginatedResult (α : Type) where
  items : List α
  nextCursor : Option String
deriving DecidableEq, Repr

/-- Shared success-path mapping of every list operation (client.ts):
items := data.data.map f and nextCursor := data.meta?.next_cursor. -/
def listResultOf {α β : Type} (f : α → β) (r : GorgiasListResponse α) :
    PaginatedResult β where
  items := r.data.map f
  nextCursor := r.meta.bind (fun m => m.next_cursor)

/-- Source listTickets success mapping (client.ts). -/
def listTicketsResult (r : GorgiasListResponse RawTicket) :
    PaginatedResult GorgiasTicket :=
  listResultOf mapTicket r

-- =============================================================================
-- Wire/internal field-name tables of every mapping function (client.ts)
-- =============================================================================

/-- Field-name translation table of one entity kind: the (wireName,
internalName) pairs read off its mapping function in source order, together
with the field names declared by the corresponding Raw interface in
client.ts, in declaration order. -/
structure FieldTable where
  entity : String
  pairs : List (String × String)
  rawFields : List String
deriving DecidableEq, Repr

/-- Re-serialization of the internal field names back to wire names through
the inverse of the translation table (the rename used in the opposite
direction by the create and update serializers). -/
def reserializedWireNames (pairs : List (String × String)) : List String :=
  (pairs.map Prod.snd).filterMap (fun i => (pairs.map Prod.swap).lookup i)

/-- Field table of mapTicket against interface RawTicket (client.ts). -/
def ticketFieldTable : FieldTable where
  entity := "ticket"
  pairs := [("id", "id"), ("external_id", "externalId"), ("subject", "subject"),
    ("status", "status"), ("priority", "priority"), ("channel", "channel"),
    ("via", "via"), ("from_agent", "fromAgent"), ("customer", "customer"),
    ("assignee_user", "assigneeUser"), ("assignee_team", "assigneeTeam"),
    ("messages_count", "messagesCount"), ("is_unread", "isUnread"),
    ("spam", "spamStatus"), ("created_datetime", "createdDatetime"),
    ("updated_datetime", "updatedDatetime"), ("opened_datetime", "openedDatetime"),
    ("closed_datetime", "closedDatetime"),
    ("last_received_message_datetime", "lastReceivedMessageDatetime"),
    ("last_message_datetime", "lastMessageDatetime"),
    ("snooze_datetime", "snoozeUntilDatetime"), ("tags", "tags"), ("uri", "uri")]
  rawFields := ["id", "external_id", "subject", "status", "priority", "channel",
    "via", "from_agent", "customer", "assignee_user", "assignee_team",
    "messages_count", "is_unread", "spam", "created_datetime", "updated_datetime",
    "opened_datetime", "closed_datetime", "last_received_message_datetime",
    "last_message_datetime", "snooze_datetime", "tags", "uri"]

/-- Field tables of all mapping functions in client.ts against their Raw
interfaces: tickets (plus the with-messages variant), messages (plus the
attachment sub-record), customers (plus the channel sub-record), users, teams,
tags, macros, rules, integrations, views, satisfaction surveys, custom fields,
events, jobs, widgets, the inline account mapping of getAccount, and the
statistic mapping of getStatistic (plus its meta sub-record). -/
def entityFieldTables : List FieldTable := [
  ticketFieldTable,
  { entity := "ticketWithMessages",
    pairs := ticketFieldTable.pairs ++ [("messages", "messages")],
    rawFields := ticketFieldTable.rawFields ++ ["messages"] },
  { entity := "message",
    pairs := [("id", "id"), ("ticket_id", "ticketId"), ("channel", "channel"),
      ("via", "via"), ("from_agent", "fromAgent"), ("sender", "sender"),
      ("receiver", "receiver"), ("subject", "subject"), ("body_text", "bodyText"),
      ("body_html", "bodyHtml"), ("stripped_text", "strippedText"),
      ("stripped_html", "strippedHtml"), ("public_html", "publicHtml"),
      ("attachments", "attachments"), ("actions", "actions"),
      ("headers", "headers"), ("macro_id", "macroId"), ("rule_id", "ruleId"),
      ("integrations", "integrationsData"), ("created_datetime", "createdDatetime"),
      ("sent_datetime", "sentDatetime"), ("failed_datetime", "failedDatetime"),
      ("opened_datetime", "openedDatetime"), ("uri", "uri")],
    rawFields := ["id", "ticket_id", "channel", "via", "from_agent", "sender",
      "receiver", "subject", "body_text", "body_html", "stripped_text",
      "stripped_html", "public_html", "attachments", "actions", "headers",
      "macro_id", "rule_id", "integrations", "created_datetime", "sent_datetime",
      "failed_datetime", "opened_datetime", "uri"] },
  { entity := "messageAttachment",
    pairs := [("url", "url"), ("name", "name"), ("size", "size"),
      ("content_type", "contentType")],
    rawFields := ["url", "name", "size", "content_type"] },
  { entity := "customer",
    pairs := [("id", "id"), ("external_id", "externalId"), ("email", "email"),
      ("name", "name"), ("firstname", "firstname"), ("lastname", "lastname"),
      ("note", "note"), ("language", "language"), ("timezone", "timezone"),
      ("data", "data"), ("channels", "channels"), ("integrations", "integrations"),
      ("meta", "meta"), ("tickets_count", "ticketsCount"),
      ("created_datetime", "createdDatetime"),
      ("updated_datetime", "updatedDatetime"), ("uri", "uri")],
    rawFields := ["id", "external_id", "email", "name", "firstname", "lastname",
      "note", "language", "timezone", "data", "channels", "integrations", "meta",
      "tickets_count", "created_datetime", "updated_datetime", "uri"] },
  { entity := "customerChannel",
    pairs := [("id", "id"), ("type", "type"), ("address", "address"),
      ("preferred", "preferred"), ("created_datetime", "createdDatetime")],
    rawFields := ["id", "type", "address", "preferred", "created_datetime"] },
  { entity := "user",
    pairs := [("id", "id"), ("external_id", "externalId"), ("email", "email"),
      ("name", "name"), ("firstname", "firstname"), ("lastname", "lastname"),
      ("role", "role"), ("bio", "bio"), ("active", "active"),
      ("timezone", "timezone"), ("language", "language"), ("country", "country"),
      ("meta", "meta"), ("created_datetime", "createdDatetime"),
      ("updated_datetime", "updatedDatetime"), ("uri", "uri")],
    rawFields := ["id", "external_id", "email", "name", "firstname", "lastname",
      "role", "bio", "active", "timezone", "language", "country", "meta",
      "created_datetime", "updated_datetime", "uri"] },
  { entity := "team",
    pairs := [("id", "id"), ("name", "name"), ("description", "description"),
      ("decoration", "decoration"), ("members", "members"),
      ("created_datetime", "createdDatetime"), ("uri", "uri")],
    rawFields := ["id", "name", "description", "decoration", "members",
      "created_datetime", "uri"] },
  { entity := "tag",
    pairs := [("id", "id"), ("name", "name"), ("description", "description"),
      ("decoration", "decoration"), ("usage", "usage"),
      ("created_datetime", "createdDatetime"),
      ("deleted_datetime", "deletedDatetime"), ("uri", "uri")],
    rawFields := ["id", "name", "description", "decoration", "usage",
      "created_datetime", "deleted_datetime", "uri"] },
  { entity := "macroEntity",
    pairs := [("id", "id"), ("external_id", "externalId"), ("name", "name"),
      ("intent", "intent"), ("language", "language"), ("usage", "usage"),
      ("actions", "actions"), ("created_datetime", "createdDatetime"),
      ("updated_datetime", "updatedDatetime"),
      ("archived_datetime", "archivedDatetime"), ("uri", "uri")],
    rawFields := ["id", "external_id", "name", "intent", "language", "usage",
      "actions", "created_datetime", "updated_datetime", "archived_datetime",
      "uri"] },
  { entity := "rule",
    pairs := [("id", "id"), ("name", "name"), ("description", "description"),
      ("code", "code"), ("code_ast", "codeAst"), ("event_types", "eventTypes"),
      ("priority", "priority"), ("created_datetime", "createdDatetime"),
      ("updated_datetime", "updatedDatetime"),
      ("deactivated_datetime", "deactivatedDatetime"), ("uri", "uri")],
    rawFields := ["id", "name", "description", "code", "code_ast", "event_types",
      "priority", "created_datetime", "updated_datetime", "deactivated_datetime",
      "uri"] },
  { entity := "integration",
    pairs := [("id", "id"), ("name", "name"), ("type", "type"), ("http", "http"),
      ("created_datetime", "createdDatetime"),
      ("updated_datetime", "updatedDatetime"), ("managed", "managed"),
      ("business_hours_id", "businessHoursId"), ("uri", "uri")],
    rawFields := ["id", "name", "type", "http", "created_datetime",
      "updated_datetime", "managed", "business_hours_id", "uri"] },
  { entity := "view",
    pairs := [("id", "id"), ("name", "name"), ("slug", "slug"),
      ("filters", "filters"), ("order_by", "orderBy"), ("order_dir", "orderDir"),
      ("visibility", "visibility"), ("fields", "fields"),
      ("decoration", "decoration"), ("created_datetime", "createdDatetime"),
      ("updated_datetime", "updatedDatetime"), ("uri", "uri")],
    rawFields := ["id", "name", "slug", "filters", "order_by", "order_dir",
      "visibility", "fields", "decoration", "created_datetime",
      "updated_datetime", "uri"] },
  { entity := "satisfactionSurvey",
    pairs := [("id", "id"), ("score", "score"), ("body_text", "bodyText"),
      ("customer_id", "customerId"), ("ticket_id", "ticketId"), ("meta", "meta"),
      ("created_datetime", "createdDatetime"), ("sent_datetime", "sentDatetime"),
      ("scored_datetime", "scoredDatetime"),
      ("should_send_datetime", "shouldSendDatetime"), ("uri", "uri")],
    rawFields := ["id", "score", "body_text", "customer_id", "ticket_id", "meta",
      "created_datetime", "sent_datetime", "scored_datetime",
      "should_send_datetime", "uri"] },
  { entity := "customField",
    pairs := [("id", "id"), ("external_id", "externalId"),
      ("object_type", "objectType"), ("label", "label"),
      ("description", "description"), ("priority", "priority"),
      ("required", "required"), ("managed_type", "managedType"),
      ("definition", "definition"), ("created_datetime", "createdDatetime"),
      ("updated_datetime", "updatedDatetime"),
      ("deactivated_datetime", "deactivatedDatetime"), ("uri", "uri")],
    rawFields := ["id", "external_id", "object_type", "label", "description",
      "priority", "required", "managed_type", "definition", "created_datetime",
      "updated_datetime", "deactivated_datetime", "uri"] },
  { entity := "event",
    pairs := [("id", "id"), ("context", "context"), ("type", "type"),
      ("object_id", "objectId"), ("object_type", "objectType"),
      ("user_id", "userId"), ("data", "data"),
      ("created_datetime", "createdDatetime"), ("uri", "uri")],
    rawFields := ["id", "context", "type", "object_id", "object_type", "user_id",
      "data", "created_datetime", "uri"] },
  { entity := "job",
    pairs := [("id", "id"), ("type", "type"), ("status", "status"),
      ("params", "params"), ("info", "info"),
      ("scheduled_datetime", "scheduledDatetime"),
      ("completed_datetime", "completedDatetime"),
      ("created_datetime", "createdDatetime"),
      ("updated_datetime", "updatedDatetime"), ("uri", "uri")],
    rawFields := ["id", "type", "status", "params", "info", "scheduled_datetime",
      "completed_datetime", "created_datetime", "updated_datetime", "uri"] },
  { entity := "widget",
    pairs := [("id", "id"), ("context", "context"), ("template", "template"),
      ("order", "order"), ("integration_id", "integrationId"),
      ("app_id", "appId"), ("created_datetime", "createdDatetime"),
      ("updated_datetime", "updatedDatetime"), ("uri", "uri")],
    rawFields := ["id", "context", "template", "order", "integration_id",
      "app_id", "created_datetime", "updated_datetime", "uri"] },
  { entity := "account",
    pairs := [("domain", "domain"), ("status", "status"),
      ("settings", "settings"), ("created_datetime", "createdDatetime"),
      ("deactivated_datetime", "deactivatedDatetime")],
    rawFields := ["domain", "status", "settings", "created_datetime",
      "deactivated_datetime"] },
  { entity := "statistic",
    pairs := [("data", "data"), ("meta", "meta")],
    rawFields := ["data", "meta"] },
  { entity := "statisticMeta",
    pairs := [("start_datetime", "startDatetime"), ("end_datetime", "endDatetime"),
      ("previous_start_datetime", "previousStartDatetime"),
      ("previous_end_datetime", "previousEndDatetime")],
    rawFields := ["start_datetime", "end_datetime", "previous_start_datetime",
      "previous_end_datetime"] }]

-- =============================================================================
-- JavaScript runtime value model (for the formatter, utils/formatters.ts)
-- =============================================================================

/-- A JavaScript runtime value (the serializable fragment relevant to the
formatter): undefined, null, booleans, numbers, strings, arrays, objects. -/
inductive JsValue where
  | undefined
  | nullv
  | bool (b : Bool)
  | num (n : Int)
  | str (s : String)
  | arr (elems : List JsValue)
  | obj (fields : List (String × JsValue))
deriving Repr

/-- Null or undefined. -/
def JsValue.isNullish : JsValue → Bool
  | .undefined => true
  | .nullv => true
  | _ => false

/-- JS truthiness of a value. -/
def JsValue.truthy : JsValue → Bool
  | .undefined => false
  | .nullv => false
  | .bool b => b
  | .num n => n != 0
  | .str s => !s.isEmpty
  | .arr _ => true
  | .obj _ => true

/-- An object value (typeof object that is not null and not an array). -/
def JsValue.isObj : JsValue → Bool
  | .obj _ => true
  | _ => false

/-- typeof v === object for a non-null value (objects and arrays). -/
def JsValue.isObjectLike : JsValue → Bool
  | .arr _ => true
  | .obj _ => true
  | _ => false

/-- Elements of an array value (empty for anything else). -/
def JsValue.arrElems : JsValue → List JsValue
  | .arr l => l
  | _ => []

mutual

/-- JS String(v) and template-literal coercion: array elements join with a
comma (nullish elements rendering empty), objects render as the object tag. -/
def jsToString : JsValue → String
  | .undefined => "undefined"
  | .nullv => "null"
  | .bool b => if b then "true" else "false"
  | .num n => toString n
  | .str s => s
  | .arr l => String.intercalate "," (jsToStringList l)
  | .obj _ => "[object Object]"

/-- Render each array element for the default array join. -/
def jsToStringList : List JsValue → List String
  | [] => []
  | JsValue.undefined :: rest => "" :: jsToStringList rest
  | JsValue.nullv :: rest => "" :: jsToStringList rest
  | v :: rest => jsToString v :: jsToStringList rest

end

mutual

/-- Model of JSON.stringify (a platform primitive): a total rendering of the
value; its exact layout is irrelevant to every claim, totality and determinism
are what matter. -/
def jsonStringify : JsValue → String
  | .undefined => "null"
  | .nullv => "null"
  | .bool b => if b then "true" else "false"
  | .num n => toString n
  | .str s => "\"" ++ s ++ "\""
  | .arr l => "[" ++ String.intercalate "," (jsonStringifyList l) ++ "]"
  | .obj fs => "\x7b" ++ String.intercalate "," (jsonStringifyFields fs) ++ "\x7d"

/-- Serialize array elements. -/
def jsonStringifyList : List JsValue → List String
  | [] => []
  | v :: rest => jsonStringify v :: jsonStringifyList rest

/-- Serialize object fields. -/
def jsonStringifyFields : List (String × JsValue) → List String
  | [] => []
  | (k, v) :: rest => ("\"" ++ k ++ "\":" ++ jsonStringify v) :: jsonStringifyFields rest

end

/-- A thrown JS runtime TypeError (the only raise the formatter can
produce). -/
inductive JsErr where
  | typeError (message : String)
deriving DecidableEq, Repr

/-- JS member access v[k]: throws a TypeError when the base is null or
undefined; yields the field value or undefined on an object; arrays and
strings expose length and numeric indices; other primitives expose no own
property accessed here. -/
def jsGet (v : JsValue) (k : String) : Except JsErr JsValue :=
  match v with
  | .undefined => Except.error
      (.typeError ("Cannot read properties of undefined (reading " ++ k ++ ")"))
  | .nullv => Except.error
      (.typeError ("Cannot read properties of null (reading " ++ k ++ ")"))
  | .obj fields => Except.ok ((fields.lookup k).getD .undefined)
  | .arr elems =>
      if k = "length" then Except.ok (.num elems.length)
      else
        match k.toNat? with
        | some i => Except.ok ((elems[i]?).getD .undefined)
        | none => Except.ok .undefined
  | .str s =>
      if k = "length" then Except.ok (.num s.length)
      else
        match k.toNat? with
        | some i =>
            Except.ok (((s.toList[i]?).map (fun c => JsValue.str (String.mk [c]))).getD .undefined)
        | none => Except.ok .undefined
  | .bool _ => Except.ok .undefined
  | .num _ => Except.ok .undefined

/-- Optional chaining v?.k on an already-evaluated base: undefined for a
nullish base, plain member access otherwise (which then cannot throw). -/
def jsGetOpt (v : JsValue) (k : String) : JsValue :=
  if v.isNullish then .undefined
  else
    match jsGet v k with
    | .ok r => r
    | .error _ => .undefined

/-- JS a || b on values. -/
def jsValOr (a b : JsValue) : JsValue := if a.truthy then a else b

/-- JS a ?? b on values. -/
def jsValCoalesce (a b : JsValue) : JsValue := if a.isNullish then b else a

/-- Object.keys: throws a TypeError on null and undefined, the field names of
an object, index strings for arrays and strings, empty for the remaining
primitives. -/
def objectKeys (v : JsValue) : Except JsErr (List String) :=
  match v with
  | .undefined => Except.error (.typeError "Cannot convert undefined or null to object")
  | .nullv => Except.error (.typeError "Cannot convert undefined or null to object")
  | .obj fields => Except.ok (fields.map Prod.fst)
  | .arr elems => Except.ok ((List.range elems.length).map toString)
  | .str s => Except.ok ((List.range s.length).map toString)
  | .bool _ => Except.ok []
  | .num _ => Except.ok []

-- =============================================================================
-- Formatter string helpers (utils/formatters.ts)
-- =============================================================================

/-- Source capitalize (utils/formatters.ts): uppercase the first character. -/
def capitalize (s : String) : String :=
  match s.toList with
  | [] => ""
  | c :: rest => String.mk (c.toUpper :: rest)

/-- Source formatKey (utils/formatters.ts): insert a space before each capital
letter, uppercase the first character, trim. -/
def formatKey (key : String) : String :=
  let spaced := String.mk ((key.toList.map
    (fun c => if c.isUpper then [' ', c] else [c])).flatten)
  (capitalize spaced).trim

/-- Source truncate (utils/formatters.ts): cut a long string to maxLength with
a three-dot ellipsis. -/
def truncate (s : String) (maxLength : Nat) : String :=
  if s.length ≤ maxLength then s
  else (s.take (maxLength - 3)) ++ "..."

/-- Behaviour of truncate applied to an arbitrary runtime value: strings are
cut; a short-enough array is returned unchanged (it has a length property and
passes the length guard); every other value fails the guard and reaches
str.substring, which throws a TypeError. -/
def truncateValue (v : JsValue) (maxLength : Nat) : Except JsErr String :=
  match v with
  | .str s => Except.ok (truncate s maxLength)
  | .arr l =>
      if l.length ≤ maxLength then Except.ok (jsToString v)
      else Except.error (.typeError "str.substring is not a function")
  | _ => Except.error (.typeError "str.substring is not a function")

/-- Source formatDate (utils/formatters.ts), with the platform Date modelled
by the toISO oracle (none models the RangeError of toISOString on an invalid
date, which the try catches, answering with the input itself): a falsy input
yields a dash, otherwise the calendar-date prefix of the ISO string. -/
def formatDate (toISO : JsValue → Option String) (dateString : JsValue) : String :=
  if !dateString.truthy then "-"
  else
    match toISO dateString with
    | some iso => (iso.splitOn "T").headD ""
    | none => jsToString dateString

-- =============================================================================
-- Markdown tables (utils/formatters.ts), lifted to runtime values; member
-- accesses follow source order, so the first nullish element throws exactly
-- as in JS
-- =============================================================================

/-- Source formatTicketsTable (utils/formatters.ts). -/
def formatTicketsTable (toISO : JsValue → Option String) (tickets : List JsValue) :
    Except JsErr String := do
  let rows ← tickets.mapM (fun ticket => do
    let customerRef ← jsGet ticket "customer"
    let customer := jsValOr (jsGetOpt customerRef "email")
      (jsValOr (jsGetOpt customerRef "name") (JsValue.str "-"))
    let subjectVal ← jsGet ticket "subject"
    let subject ← if subjectVal.truthy then truncateValue subjectVal 40 else pure "-"
    let createdVal ← jsGet ticket "createdDatetime"
    let created := formatDate toISO createdVal
    let idVal ← jsGet ticket "id"
    let statusVal ← jsGet ticket "status"
    let priorityVal ← jsGet ticket "priority"
    let channelVal ← jsGet ticket "channel"
    pure ("| " ++ jsToString idVal ++ " | " ++ subject ++ " | " ++
      jsToString statusVal ++ " | " ++ jsToString (jsValOr priorityVal (JsValue.str "-")) ++
      " | " ++ jsToString channelVal ++ " | " ++ jsToString customer ++ " | " ++
      created ++ " |"))
  pure (String.intercalate "\n"
    ("| ID | Subject | Status | Priority | Channel | Customer | Created |" ::
     "|---|---|---|---|---|---|---|" :: rows))

/-- Source formatMessagesTable (utils/formatters.ts). -/
def formatMessagesTable (toISO : JsValue → Option String) (messages : List JsValue) :
    Except JsErr String := do
  let rows ← messages.mapM (fun message => do
    let senderRef ← jsGet message "sender"
    let sender := jsValOr (jsGetOpt senderRef "email")
      (jsValOr (jsGetOpt senderRef "name") (JsValue.str "-"))
    let createdVal ← jsGet message "createdDatetime"
    let created := formatDate toISO createdVal
    let idVal ← jsGet message "id"
    let ticketIdVal ← jsGet message "ticketId"
    let channelVal ← jsGet message "channel"
    let fromAgentVal ← jsGet message "fromAgent"
    pure ("| " ++ jsToString idVal ++ " | " ++ jsToString ticketIdVal ++ " | " ++
      jsToString channelVal ++ " | " ++ (if fromAgentVal.truthy then "Yes" else "No") ++
      " | " ++ jsToString sender ++ " | " ++ created ++ " |"))
  pure (String.intercalate "\n"
    ("| ID | Ticket | Channel | From Agent | Sender | Created |" ::
     "|---|---|---|---|---|---|" :: rows))

/-- Name fallback shared by the customers and users tables:
name || (firstname-space-lastname trimmed) || dash. -/
def personDisplayName (record : JsValue) : Except JsErr JsValue := do
  let nameVal ← jsGet record "name"
  if nameVal.truthy then
    pure nameVal
  else do
    let fn ← jsGet record "firstname"
    let ln ← jsGet record "lastname"
    let combined := (jsToString (jsValOr fn (JsValue.str "")) ++ " " ++
      jsToString (jsValOr ln (JsValue.str ""))).trim
    pure (jsValOr (JsValue.str combined) (JsValue.str "-"))

/-- Source formatCustomersTable (utils/formatters.ts). -/
def formatCustomersTable (toISO : JsValue → Option String) (customers : List JsValue) :
    Except JsErr String := do
  let rows ← customers.mapM (fun customer => do
    let name ← personDisplayName customer
    let createdVal ← jsGet customer "createdDatetime"
    let created := formatDate toISO createdVal
    let idVal ← jsGet customer "id"
    let emailVal ← jsGet customer "email"
    let languageVal ← jsGet customer "language"
    let ticketsCountVal ← jsGet customer "ticketsCount"
    pure ("| " ++ jsToString idVal ++ " | " ++ jsToString name ++ " | " ++
      jsToString (jsValOr emailVal (JsValue.str "-")) ++ " | " ++
      jsToString (jsValOr languageVal (JsValue.str "-")) ++ " | " ++
      jsToString ticketsCountVal ++ " | " ++ created ++ " |"))
  pure (String.intercalate "\n"
    ("| ID | Name | Email | Language | Tickets | Created |" ::
     "|---|---|---|---|---|---|" :: rows))

/-- Source formatUsersTable (utils/formatters.ts). -/
def formatUsersTable (toISO : JsValue → Option String) (users : List JsValue) :
    Except JsErr String := do
  let rows ← users.mapM (fun user => do
    let name ← personDisplayName user
    let createdVal ← jsGet user "createdDatetime"
    let created := formatDate toISO createdVal
    let idVal ← jsGet user "id"
    let emailVal ← jsGet user "email"
    let roleRef ← jsGet user "role"
    let roleName := jsValOr (jsGetOpt roleRef "name") (JsValue.str "-")
    let activeVal ← jsGet user "active"
    pure ("| " ++ jsToString idVal ++ " | " ++ jsToString name ++ " | " ++
      jsToString emailVal ++ " | " ++ jsToString roleName ++ " | " ++
      (if activeVal.truthy then "Yes" else "No") ++ " | " ++ created ++ " |"))
  pure (String.intercalate "\n"
    ("| ID | Name | Email | Role | Active | Created |" ::
     "|---|---|---|---|---|---|" :: rows))

/-- Source formatTeamsTable (utils/formatters.ts). -/
def formatTeamsTable (toISO : JsValue → Option String) (teams : List JsValue) :
    Except JsErr String := do
  let rows ← teams.mapM (fun team => do
    let descVal ← jsGet team "description"
    let description ← if descVal.truthy then truncateValue descVal 30 else pure "-"
    let createdVal ← jsGet team "createdDatetime"
    let created := formatDate toISO createdVal
    let idVal ← jsGet team "id"
    let nameVal ← jsGet team "name"
    let membersVal ← jsGet team "members"
    let memberCount := jsValOr (jsGetOpt membersVal "length") (JsValue.num 0)
    pure ("| " ++ jsToString idVal ++ " | " ++ jsToString nameVal ++ " | " ++
      description ++ " | " ++ jsToString memberCount ++ " | " ++ created ++ " |"))
  pure (String.intercalate "\n"
    ("| ID | Name | Description | Members | Created |" ::
     "|---|---|---|---|---|" :: rows))

/-- Source formatTagsTable (utils/formatters.ts). -/
def formatTagsTable (toISO : JsValue → Option String) (tags : List JsValue) :
    Except JsErr String := do
  let rows ← tags.mapM (fun tag => do
    let descVal ← jsGet tag "description"
    let description ← if descVal.truthy then truncateValue descVal 30 else pure "-"
    let createdVal ← jsGet tag "createdDatetime"
    let created := formatDate toISO createdVal
    let idVal ← jsGet tag "id"
    let nameVal ← jsGet tag "name"
    let usageVal ← jsGet tag "usage"
    pure ("| " ++ jsToString idVal ++ " | " ++ jsToString nameVal ++ " | " ++
      description ++ " | " ++ jsToString usageVal ++ " | " ++ created ++ " |"))
  pure (String.intercalate "\n"
    ("| ID | Name | Description | Usage | Created |" ::
     "|---|---|---|---|---|" :: rows))

/-- Source formatMacrosTable (utils/formatters.ts). -/
def formatMacrosTable (toISO : JsValue → Option String) (items : List JsValue) :
    Except JsErr String := do
  let rows ← items.mapM (fun record => do
    let createdVal ← jsGet record "createdDatetime"
    let created := formatDate toISO createdVal
    let idVal ← jsGet record "id"
    let nameVal ← jsGet record "name"
    let intentVal ← jsGet record "intent"
    let languageVal ← jsGet record "language"
    let usageVal ← jsGet record "usage"
    pure ("| " ++ jsToString idVal ++ " | " ++ jsToString nameVal ++ " | " ++
      jsToString (jsValOr intentVal (JsValue.str "-")) ++ " | " ++
      jsToString (jsValOr languageVal (JsValue.str "-")) ++ " | " ++
      jsToString usageVal ++ " | " ++ created ++ " |"))
  pure (String.intercalate "\n"
    ("| ID | Name | Intent | Language | Usage | Created |" ::
     "|---|---|---|---|---|---|" :: rows))

/-- Source formatRulesTable (utils/formatters.ts). -/
def formatRulesTable (toISO : JsValue → Option String) (rules : List JsValue) :
    Except JsErr String := do
  let rows ← rules.mapM (fun rule => do
    let deactVal ← jsGet rule "deactivatedDatetime"
    let active := if deactVal.truthy then "No" else "Yes"
    let createdVal ← jsGet rule "createdDatetime"
    let created := formatDate toISO createdVal
    let idVal ← jsGet rule "id"
    let nameVal ← jsGet rule "name"
    let eventTypesVal ← jsGet rule "eventTypes"
    let priorityVal ← jsGet rule "priority"
    pure ("| " ++ jsToString idVal ++ " | " ++ jsToString nameVal ++ " | " ++
      jsToString eventTypesVal ++ " | " ++ jsToString priorityVal ++ " | " ++
      active ++ " | " ++ created ++ " |"))
  pure (String.intercalate "\n"
    ("| ID | Name | Event Types | Priority | Active | Created |" ::
     "|---|---|---|---|---|---|" :: rows))

/-- Source formatSatisfactionSurveysTable (utils/formatters.ts): the score is
dash only for a strict null. -/
def formatSatisfactionSurveysTable (toISO : JsValue → Option String)
    (surveys : List JsValue) : Except JsErr String := do
  let rows ← surveys.mapM (fun survey => do
    let scoreVal ← jsGet survey "score"
    let score :=
      match scoreVal with
      | JsValue.nullv => "-"
      | v => jsToString v
    let scoredVal ← jsGet survey "scoredDatetime"
    let scoredAt := if scoredVal.truthy then formatDate toISO scoredVal else "-"
    let createdVal ← jsGet survey "createdDatetime"
    let created := formatDate toISO createdVal
    let idVal ← jsGet survey "id"
    let ticketIdVal ← jsGet survey "ticketId"
    let customerIdVal ← jsGet survey "customerId"
    pure ("| " ++ jsToString idVal ++ " | " ++ score ++ " | " ++
      jsToString ticketIdVal ++ " | " ++ jsToString customerIdVal ++ " | " ++
      scoredAt ++ " | " ++ created ++ " |"))
  pure (String.intercalate "\n"
    ("| ID | Score | Ticket | Customer | Scored At | Created |" ::
     "|---|---|---|---|---|---|" :: rows))

/-- One cell of the generic table: String(record[k] ?? dash); the member
access throws on a nullish row. -/
def genericCell (item : JsValue) (k : String) : Except JsErr String := do
  let v ← jsGet item k
  pure (jsToString (jsValCoalesce v (JsValue.str "-")))

/-- One row of the generic table. -/
def genericRow (keys : List String) (item : JsValue) : Except JsErr String := do
  let values ← keys.mapM (genericCell item)
  pure ("| " ++ String.intercalate " | " values ++ " |")

/-- Source formatGenericTable (utils/formatters.ts): a table built from the
keys of the first item (capped at 5 columns); Object.keys throws a TypeError
when the first element is null or undefined. -/
def formatGenericTable (items : List JsValue) : Except JsErr String :=
  match items with
  | [] => Except.ok "_No items_"
  | first :: _ => do
    let allKeys ← objectKeys first
    let keys := allKeys.take 5
    let header := "| " ++ String.intercalate " | " keys ++ " |"
    let sep := "|" ++ String.intercalate "|" (keys.map (fun _ => "---")) ++ "|"
    let rows ← items.mapM (genericRow keys)
    pure (String.intercalate "\n" (header :: sep :: rows))

/-- Source formatArrayAsMarkdown (utils/formatters.ts): delegates to the
generic table, ignoring the entity type. -/
def formatArrayAsMarkdown (data : List JsValue) (_entityType : String) :
    Except JsErr String :=
  formatGenericTable data

/-- Source isPaginatedResponse (utils/formatters.ts): a non-null object with
an items field that is an array. -/
def isPaginatedResponse (data : JsValue) : Bool :=
  match data with
  | .obj fields =>
      match fields.lookup "items" with
      | some (.arr _) => true
      | _ => false
  | _ => false

/-- Source formatPaginatedAsMarkdown (utils/formatters.ts): heading, item
count, optional cursor line, then the per-entity-type table (the guard in
formatAsMarkdown guarantees the base is an object whose items field is an
array). -/
def formatPaginatedAsMarkdown (toISO : JsValue → Option String) (data : JsValue)
    (entityType : String) : Except JsErr String := do
  let items := (jsGetOpt data "items").arrElems
  let cursorVal := jsGetOpt data "nextCursor"
  let headLines := ["## " ++ capitalize entityType, "",
    "**Showing:** " ++ toString items.length ++ " items"] ++
    (if cursorVal.truthy then
      ["**More available:** Yes (cursor: `" ++ jsToString cursorVal ++ "`)"]
     else []) ++ [""]
  if items.length = 0 then
    pure (String.intercalate "\n" (headLines ++ ["_No items found._"]))
  else do
    let table ←
      match entityType with
      | "tickets" => formatTicketsTable toISO items
      | "messages" => formatMessagesTable toISO items
      | "customers" => formatCustomersTable toISO items
      | "users" => formatUsersTable toISO items
      | "teams" => formatTeamsTable toISO items
      | "tags" => formatTagsTable toISO items
      | "macros" => formatMacrosTable toISO items
      | "rules" => formatRulesTable toISO items
      | "satisfaction_surveys" => formatSatisfactionSurveysTable toISO items
      | _ => formatGenericTable items
    pure (String.intercalate "\n" (headLines ++ [table]))

/-- Source formatObjectAsMarkdown (utils/formatters.ts): single-entity detail
view; nullish fields are skipped, object and array fields become a labeled
fenced json block; it is total. -/
def formatObjectAsMarkdown (fields : List (String × JsValue)) (entityType : String) :
    String :=
  let singular := if entityType.endsWith "s" then entityType.dropRight 1 else entityType
  let entryLines := (fields.map (fun kv =>
    if kv.2.isNullish then []
    else if kv.2.isObjectLike then
      ["**" ++ formatKey kv.1 ++ ":**", "```json", jsonStringify kv.2, "```"]
    else
      ["**" ++ formatKey kv.1 ++ ":** " ++ jsToString kv.2])).flatten
  String.intercalate "\n" (("## " ++ capitalize singular) :: "" :: entryLines)

/-- Source formatAsMarkdown (utils/formatters.ts): duck-typed shape dispatch —
paginated envelope, then bare array, then bare object, then String(data). -/
def formatAsMarkdown (toISO : JsValue → Option String) (data : JsValue)
    (entityType : String) : Except JsErr String :=
  if isPaginatedResponse data then formatPaginatedAsMarkdown toISO data entityType
  else
    match data with
    | .arr elems => formatArrayAsMarkdown elems entityType
    | .obj fields => Except.ok (formatObjectAsMarkdown fields entityType)
    | v => Except.ok (jsToString v)

-- =============================================================================
-- Tool response envelope, formatResponse, formatError (utils/formatters.ts)
-- =============================================================================

/-- One content item of an MCP tool response. -/
structure ContentItem where
  type : String
  text : String
deriving DecidableEq, Repr

/-- MCP tool response envelope (ToolResponse, utils/formatters.ts); an absent
isError is modelled as false. -/
structure ToolResponse where
  content : List ContentItem
  isError : Bool
deriving DecidableEq, Repr

/-- The two response formats. -/
inductive ResponseFormat where
  | json
  | markdown
deriving DecidableEq, Repr

/-- Source formatResponse (utils/formatters.ts): markdown renders through
formatAsMarkdown, json through JSON.stringify, both wrapped in a single text
content item. -/
def formatResponse (toISO : JsValue → Option String) (data : JsValue)
    (format : ResponseFormat) (entityType : String) : Except JsErr ToolResponse :=
  match format with
  | .markdown => do
      let text ← formatAsMarkdown toISO data entityType
      pure { content := [{ type := "text", text := text }], isError := false }
  | .json =>
      Except.ok
        { content := [{ type := "text", text := jsonStringify data }],
          isError := false }

/-- A thrown value reaching formatError: one of the Gorgias API error classes,
or a plain Error such as the SyntaxError thrown by JSON.parse.  Modelled from
the spec where the class hierarchy matters: utils/errors.ts is missing from
the sources, and section 4.4 of the spec says the classified upstream
failures carry the retryable suffix when transient. -/
inductive ThrownValue where
  | gorgias (e : GorgiasFailure)
  | plainError (message : String)
deriving DecidableEq, Repr

/-- The message string computed by formatError (utils/formatters.ts): the
error message, with the retryable suffix for a retryable classified
failure. -/
def formatErrorMessageOf : ThrownValue → String
  | .gorgias e => "Error: " ++ e.messageOf ++ (if e.retryable then " (retryable)" else "")
  | .plainError m => "Error: " ++ m

/-- Modelled from the spec: formatErrorForLogging lives in the missing
utils/errors.ts; section 4.4 maps any raised failure to a structured details
record; modelled as a record carrying the message. -/
def formatErrorForLogging (e : ThrownValue) : JsValue :=
  JsValue.obj [("message", JsValue.str (match e with
    | .gorgias g => g.messageOf
    | .plainError m => m))]

/-- Source formatError (utils/formatters.ts): always an isError envelope
whose text serializes the error-and-details object; it is total. -/
def formatError (e : ThrownValue) : ToolResponse where
  content := [{ type := "text", text := jsonStringify (JsValue.obj
    [("error", JsValue.str (formatErrorMessageOf e)),
     ("details", formatErrorForLogging e)]) }]
  isError := true

-- =============================================================================
-- The gorgias_create_macro tool handler (tools/macros.ts)
-- =============================================================================

/-- Record of one upstream client call issued by a tool handler. -/
inductive ClientCallRecord where
  | createMacroCall (name : String) (actions : JsValue)
      (intent language : Option String)

/-- Success envelope of the gorgias_create_macro handler (tools/macros.ts):
the serialized success-message-and-record object in a single text item. -/
def createMacroSuccessEnvelope (m : JsValue) : ToolResponse where
  content := [{ type := "text", text := jsonStringify (JsValue.obj
    [("success", JsValue.bool true),
     ("message", JsValue.str "Macro created"), ("macro", m)]) }]
  isError := false

/-- Source gorgias_create_macro handler (tools/macros.ts): JSON.parse the
caller-supplied actions text first (parsedActions is the outcome of the
platform JSON.parse; the error side carries the thrown SyntaxError message);
only on a successful parse is the upstream client invoked (upstream abstracts
client.createMacro); every thrown value is converted locally by formatError,
so the handler is a total function into the envelope type.  The second
component records the upstream client calls issued. -/
def createMacroHandlerRun (name : String) (intent language : Option String)
    (parsedActions : Except String JsValue)
    (upstream : JsValue → Except GorgiasFailure JsValue) :
    ToolResponse × List ClientCallRecord :=
  match parsedActions with
  | .error msg => (formatError (.plainError msg), [])
  | .ok actions =>
      match upstream actions with
      | .error g => (formatError (.gorgias g),
          [ClientCallRecord.createMacroCall name actions intent language])
      | .ok m =>
          (createMacroSuccessEnvelope m,
           [ClientCallRecord.createMacroCall name actions intent language])

-- =============================================================================
-- Totality predicates for the amended formatter claim
-- =============================================================================

/-- Entity types without a dedicated table (rendered through the generic
table). -/
def isGenericEntityType (e : String) : Bool :=
  !(["tickets", "messages", "customers", "users", "teams", "tags", "macros",
     "rules", "satisfaction_surveys"].contains e)

/-- Shapes on which the markdown renderer is proven total below: any value
that is not an item list, and item lists (bare arrays, or the items array of a
paginated envelope) all of whose elements are objects. -/
def markdownSafeShape (data : JsValue) : Bool :=
  match data with
  | .arr l => l.all (fun x => x.isObj)
  | .obj fields =>
      match fields.lookup "items" with
      | some (.arr l) => l.all (fun x => x.isObj)
      | _ => true
  | _ => true

-- =============================================================================
-- Helper lemmas (shared)
-- =============================================================================

/-- When a member is missing, validateGorgiasCredentials fails with exactly the
joined missing-header message. -/
theorem validate_error_of_missing (c : PartialCredentials)
    (hne : missingHeaders c ≠ []) :
    validateGorgiasCredentials c =
      Except.error ("Missing required headers: " ++
        String.intercalate ", " (missingHeaders c)) := by
  by_cases hl : (missingHeaders c).length > 0
  · simp [validateGorgiasCredentials, hl]
  · exact absurd (List.eq_nil_of_length_eq_zero (by omega)) hne

/-- A header that the request maps to none is extracted as an unset field. -/
theorem parse_none_of_get_none (h : RequestHeaders) (name : String)
    (hn : h.get name = none) : orUndefined (h.get name) = none := by
  simp [hn, orUndefined]

/-- A monadic map over Except succeeds when the function succeeds on every
element. -/
theorem mapM_ok_of_forall {α β : Type} (f : α → Except JsErr β) (l : List α)
    (h : ∀ x ∈ l, ∃ y, f x = Except.ok y) : ∃ ys, l.mapM f = Except.ok ys := by
  induction l with
  | nil => exact ⟨[], rfl⟩
  | cons a t ih =>
      obtain ⟨y, hy⟩ := h a (by simp)
      obtain ⟨ys, hys⟩ := ih (fun x hx => h x (by simp [hx]))
      refine ⟨y :: ys, ?_⟩
      rw [List.mapM_cons, hy, hys]
      rfl

/-- A generic-table cell never throws on an object row. -/
theorem genericCell_ok (fs : List (String × JsValue)) (k : String) :
    ∃ s, genericCell (JsValue.obj fs) k = Except.ok s :=
  ⟨_, rfl⟩

/-- A generic-table row never throws on an object element. -/
theorem genericRow_ok (keys : List String) (item : JsValue)
    (hobj : item.isObj = true) : ∃ s, genericRow keys item = Except.ok s := by
  cases item <;> simp [JsValue.isObj] at hobj
  case obj fs =>
    obtain ⟨vs, hvs⟩ := mapM_ok_of_forall (genericCell (JsValue.obj fs)) keys
      (fun k _ => genericCell_ok fs k)
    have hdef : genericRow keys (JsValue.obj fs) =
        (keys.mapM (genericCell (JsValue.obj fs))).bind
          (fun values => Except.ok ("| " ++ String.intercalate " | " values ++ " |")) := rfl
    refine ⟨"| " ++ String.intercalate " | " vs ++ " |", ?_⟩
    rw [hdef, hvs]
    rfl

/-- The generic table never throws when every element is an object. -/
theorem formatGenericTable_ok (items : List JsValue)
    (h : ∀ x ∈ items, x.isObj = true) :
    ∃ s, formatGenericTable items = Except.ok s := by
  cases items with
  | nil => exact ⟨"_No items_", rfl⟩
  | cons first rest =>
      have hf := h first (by simp)
      obtain ⟨fs, rfl⟩ : ∃ fs, first = JsValue.obj fs := by
        cases first <;> simp [JsValue.isObj] at hf
        exact ⟨_, rfl⟩
      obtain ⟨rows, hrows⟩ := mapM_ok_of_forall
        (genericRow ((fs.map Prod.fst).take 5)) (JsValue.obj fs :: rest)
        (fun x hx => genericRow_ok _ x (h x hx))
      have hdef : formatGenericTable (JsValue.obj fs :: rest) =
          ((JsValue.obj fs :: rest).mapM (genericRow ((fs.map Prod.fst).take 5))).bind
            (fun rows => Except.ok (String.intercalate "\n"
              (("| " ++ String.intercalate " | " ((fs.map Prod.fst).take 5) ++ " |") ::
               ("|" ++ String.intercalate "|"
                 (((fs.map Prod.fst).take 5).map (fun _ => "---")) ++ "|") :: rows))) := rfl
      refine ⟨String.intercalate "\n"
        (("| " ++ String.intercalate " | " ((fs.map Prod.fst).take 5) ++ " |") ::
         ("|" ++ String.intercalate "|"
           (((fs.map Prod.fst).take 5).map (fun _ => "---")) ++ "|") :: rows), ?_⟩
      rw [hdef, hrows]
      rfl

/-- An Except value with isOk is an ok. -/
theorem exists_ok_of_isOk {α : Type} (x : Except JsErr α) (h : x.isOk = true) :
    ∃ r, x = Except.ok r := by
  cases x with
  | error e => simp [Except.isOk, Except.toBool] at h
  | ok r => exact ⟨r, rfl⟩

/-- The paginated renderer never throws for a generic entity type whose items
are all objects. -/
theorem formatPaginatedAsMarkdown_isOk (toISO : JsValue → Option String)
    (fields : List (String × JsValue)) (l : List JsValue) (entityType : String)
    (hitems : fields.lookup "items" = some (JsValue.arr l))
    (hgen : isGenericEntityType entityType = true)
    (hl : ∀ x ∈ l, x.isObj = true) :
    (formatPaginatedAsMarkdown toISO (JsValue.obj fields) entityType).isOk = true := by
  have hitems2 : jsGetOpt (JsValue.obj fields) "items" = JsValue.arr l := by
    simp [jsGetOpt, JsValue.isNullish, jsGet, hitems]
  obtain ⟨s, hs⟩ := formatGenericTable_ok l hl
  unfold formatPaginatedAsMarkdown
  rw [hitems2]
  simp only [JsValue.arrElems]
  by_cases hz : l.length = 0
  · simp only [hz, if_true, ite_true]
    rfl
  · rw [if_neg hz]
    split
    case _ => simp [isGenericEntityType] at hgen
    case _ => simp [isGenericEntityType] at hgen
    case _ => simp [isGenericEntityType] at hgen
    case _ => simp [isGenericEntityType] at hgen
    case _ => simp [isGenericEntityType] at hgen
    case _ => simp [isGenericEntityType] at hgen
    case _ => simp [isGenericEntityType] at hgen
    case _ => simp [isGenericEntityType] at hgen
    case _ => simp [isGenericEntityType] at hgen
    case _ =>
      rw [hs]
      rfl

/-- The markdown renderer never throws for a generic entity type on a safe
shape. -/
theorem formatAsMarkdown_isOk (toISO : JsValue → Option String) (data : JsValue)
    (entityType : String) (hgen : isGenericEntityType entityType = true)
    (hsafe : markdownSafeShape data = true) :
    (formatAsMarkdown toISO data entityType).isOk = true := by
  unfold formatAsMarkdown
  by_cases hp : isPaginatedResponse data
  · rw [if_pos hp]
    cases data <;> simp [isPaginatedResponse] at hp
    rename_i fields
    cases hli : fields.lookup "items" with
    | none => simp [hli] at hp
    | some v =>
        cases v <;> simp [hli] at hp
        rename_i l
        have hl : ∀ x ∈ l, x.isObj = true := by
          simp only [markdownSafeShape, hli, List.all_eq_true] at hsafe
          exact hsafe
        exact formatPaginatedAsMarkdown_isOk toISO fields l entityType hli hgen hl
  · rw [if_neg hp]
    cases data with
    | arr elems =>
        have hl : ∀ x ∈ elems, x.isObj = true := by
          simp only [markdownSafeShape, List.all_eq_true] at hsafe
          exact hsafe
        obtain ⟨s, hs⟩ := formatGenericTable_ok elems hl
        show (formatArrayAsMarkdown elems entityType).isOk = true
        rw [formatArrayAsMarkdown, hs]
        rfl
    | obj fields => rfl
    | undefined => rfl
    | nullv => rfl
    | bool b => rfl
    | num n => rfl
    | str s => rfl

-- =============================================================================
-- Claim theorems
-- =============================================================================

/-- C3: validateGorgiasCredentials accepts exactly the triples whose three
members are all present (JS-truthy); on any other triple it fails, and the
failure message enumerates exactly the missing header names, in the fixed
order domain, then email, then apiKey. -/
theorem validateGorgiasCredentials_spec (c : PartialCredentials) :
    (validateGorgiasCredentials c = Except.ok () ↔
      strTruthy c.domain = true ∧ strTruthy c.email = true ∧ strTruthy c.apiKey = true) ∧
    (validateGorgiasCredentials c = Except.ok () ∨
      validateGorgiasCredentials c =
        Except.error ("Missing required headers: " ++
          String.intercalate ", " (missingHeaders c))) ∧
    (∀ n, n ∈ missingHeaders c ↔
      ((n = "X-Gorgias-Domain" ∧ strTruthy c.domain = false) ∨
       (n = "X-Gorgias-Email" ∧ strTruthy c.email = false) ∨
       (n = "X-Gorgias-API-Key" ∧ strTruthy c.apiKey = false))) ∧
    (missingHeaders c).Sublist ["X-Gorgias-Domain", "X-Gorgias-Email", "X-Gorgias-API-Key"] := by
  obtain ⟨d, e, k⟩ := c
  cases hd : strTruthy d <;> cases he : strTruthy e <;> cases hk : strTruthy k <;>
    refine ⟨?_, ?_, fun n => ?_, ?_⟩ <;>
    simp [validateGorgiasCredentials, missingHeaders, hd, he, hk]

/-- C3 witness: a concrete triple missing email and apiKey fails with exactly
those two header names, in order. -/
theorem validateGorgiasCredentials_spec_witness :
    validateGorgiasCredentials ⟨some "acme", none, none⟩ =
      Except.error "Missing required headers: X-Gorgias-Email, X-Gorgias-API-Key" := by
  rcases (validateGorgiasCredentials_spec ⟨some "acme", none, none⟩).2.1 with hok | herr
  · exact absurd
      (((validateGorgiasCredentials_spec ⟨some "acme", none, none⟩).1).mp hok).2.1
      (by decide)
  · rw [herr]
    rfl

/-- C10: a credential header that is present but carries the empty string is
treated as absent: extraction leaves the field unset, and validation rejects
the request with that header listed among the missing ones. -/
theorem emptyHeaderTreatedAsMissing (h : RequestHeaders) :
    (h.get "X-Gorgias-Domain" = some "" →
      (parseGorgiasCredentials h).domain = none ∧
      "X-Gorgias-Domain" ∈ missingHeaders (parseGorgiasCredentials h) ∧
      validateGorgiasCredentials (parseGorgiasCredentials h) =
        Except.error ("Missing required headers: " ++
          String.intercalate ", " (missingHeaders (parseGorgiasCredentials h)))) ∧
    (h.get "X-Gorgias-Email" = some "" →
      (parseGorgiasCredentials h).email = none ∧
      "X-Gorgias-Email" ∈ missingHeaders (parseGorgiasCredentials h) ∧
      validateGorgiasCredentials (parseGorgiasCredentials h) =
        Except.error ("Missing required headers: " ++
          String.intercalate ", " (missingHeaders (parseGorgiasCredentials h)))) ∧
    (h.get "X-Gorgias-API-Key" = some "" →
      (parseGorgiasCredentials h).apiKey = none ∧
      "X-Gorgias-API-Key" ∈ missingHeaders (parseGorgiasCredentials h) ∧
      validateGorgiasCredentials (parseGorgiasCredentials h) =
        Except.error ("Missing required headers: " ++
          String.intercalate ", " (missingHeaders (parseGorgiasCredentials h)))) := by
  refine ⟨fun hd => ?_, fun he => ?_, fun hk => ?_⟩
  · have hu : (parseGorgiasCredentials h).domain = none := by
      simp [parseGorgiasCredentials, hd, orUndefined]
      decide
    have hmem : "X-Gorgias-Domain" ∈ missingHeaders (parseGorgiasCredentials h) := by
      simp [missingHeaders, hu, strTruthy]
    exact ⟨hu, hmem, validate_error_of_missing _ (List.ne_nil_of_mem hmem)⟩
  · have hu : (parseGorgiasCredentials h).email = none := by
      simp [parseGorgiasCredentials, he, orUndefined]
      decide
    have hmem : "X-Gorgias-Email" ∈ missingHeaders (parseGorgiasCredentials h) := by
      simp [missingHeaders, hu, strTruthy]
    exact ⟨hu, hmem, validate_error_of_missing _ (List.ne_nil_of_mem hmem)⟩
  · have hu : (parseGorgiasCredentials h).apiKey = none := by
      simp [parseGorgiasCredentials, hk, orUndefined]
      decide
    have hmem : "X-Gorgias-API-Key" ∈ missingHeaders (parseGorgiasCredentials h) := by
      simp [missingHeaders, hu, strTruthy]
    exact ⟨hu, hmem, validate_error_of_missing _ (List.ne_nil_of_mem hmem)⟩

/-- C10 witness: a concrete request whose API-key header is the empty string is
rejected, with that header among the missing ones. -/
theorem emptyHeaderTreatedAsMissing_witness :
    (parseGorgiasCredentials
        ⟨[("X-Gorgias-Domain", "acme"), ("X-Gorgias-Email", "a@b.c"),
          ("X-Gorgias-API-Key", "")]⟩).apiKey = none ∧
    "X-Gorgias-API-Key" ∈ missingHeaders (parseGorgiasCredentials
        ⟨[("X-Gorgias-Domain", "acme"), ("X-Gorgias-Email", "a@b.c"),
          ("X-Gorgias-API-Key", "")]⟩) ∧
    validateGorgiasCredentials (parseGorgiasCredentials
        ⟨[("X-Gorgias-Domain", "acme"), ("X-Gorgias-Email", "a@b.c"),
          ("X-Gorgias-API-Key", "")]⟩) =
      Except.error ("Missing required headers: " ++
        String.intercalate ", " (missingHeaders (parseGorgiasCredentials
          ⟨[("X-Gorgias-Domain", "acme"), ("X-Gorgias-Email", "a@b.c"),
            ("X-Gorgias-API-Key", "")]⟩))) :=
  (emptyHeaderTreatedAsMissing
      ⟨[("X-Gorgias-Domain", "acme"), ("X-Gorgias-Email", "a@b.c"),
        ("X-Gorgias-API-Key", "")]⟩).2.2 rfl

/-- C4: a request to the /mcp endpoint missing any of the three credential
headers is answered with HTTP 401 carrying the Unauthorized envelope and the
list of the three required header names, and is never dispatched to the
protocol server (so no tool runs and no upstream call is attempted). -/
theorem mcpRoute_missing_header_unauthorized (h : RequestHeaders)
    (hmiss : h.get "X-Gorgias-Domain" = none ∨ h.get "X-Gorgias-Email" = none ∨
      h.get "X-Gorgias-API-Key" = none) :
    mcpRoute h = McpRouteOutcome.unauthorized 401 "Unauthorized"
      ("Missing required headers: " ++
        String.intercalate ", " (missingHeaders (parseGorgiasCredentials h)))
      ["X-Gorgias-Domain", "X-Gorgias-Email", "X-Gorgias-API-Key"] ∧
    (∀ c, mcpRoute h ≠ McpRouteOutcome.dispatch c) := by
  have hne : missingHeaders (parseGorgiasCredentials h) ≠ [] := by
    rcases hmiss with hn | hn | hn
    · have hu : (parseGorgiasCredentials h).domain = none := by
        simp [parseGorgiasCredentials, hn, orUndefined]
      have hmem : "X-Gorgias-Domain" ∈ missingHeaders (parseGorgiasCredentials h) := by
        simp [missingHeaders, hu, strTruthy]
      exact List.ne_nil_of_mem hmem
    · have hu : (parseGorgiasCredentials h).email = none := by
        simp [parseGorgiasCredentials, hn, orUndefined]
      have hmem : "X-Gorgias-Email" ∈ missingHeaders (parseGorgiasCredentials h) := by
        simp [missingHeaders, hu, strTruthy]
      exact List.ne_nil_of_mem hmem
    · have hu : (parseGorgiasCredentials h).apiKey = none := by
        simp [parseGorgiasCredentials, hn, orUndefined]
      have hmem : "X-Gorgias-API-Key" ∈ missingHeaders (parseGorgiasCredentials h) := by
        simp [missingHeaders, hu, strTruthy]
      exact List.ne_nil_of_mem hmem
  have herr := validate_error_of_missing _ hne
  constructor
  · simp [mcpRoute, herr]
  · intro c
    simp [mcpRoute, herr]

/-- C4 witness: a concrete request with no headers at all is answered 401 with
the three required header names. -/
theorem mcpRoute_missing_header_unauthorized_witness :
    mcpRoute ⟨[]⟩ = McpRouteOutcome.unauthorized 401 "Unauthorized"
      ("Missing required headers: " ++
        String.intercalate ", " (missingHeaders (parseGorgiasCredentials ⟨[]⟩)))
      ["X-Gorgias-Domain", "X-Gorgias-Email", "X-Gorgias-API-Key"] :=
  (mcpRoute_missing_header_unauthorized ⟨[]⟩ (Or.inl rfl)).1

/-- C1 counterexample: a requested limit of 500 on the list-customers tool is
not clamped to 100 — the shared tool input schema rejects 500 outright, and the
client query builder forwards a limit of 500 verbatim, not 100. -/
theorem limit500_rejected_not_clamped :
    listLimitSchemaAccepts 500 = false ∧
    listCustomersQuery (some ⟨some 500, none, none⟩) = [("limit", "500")] ∧
    listCustomersQuery (some ⟨some 500, none, none⟩) ≠ [("limit", "100")] := by
  refine ⟨rfl, rfl, ?_⟩
  decide

/-- C1 amended: the unused helper normalizePaginationParams would clamp any
limit above 100 down to 100, but on the live request path the list tools
reject a limit outside [1, 100] through their input schema, and listCustomers
forwards whatever limit it receives verbatim — no clamping happens before the
upstream request. -/
theorem pagination_limit_behaviour (n : Int) :
    (100 < n → (normalizePaginationParams (some ⟨some n, none⟩) 100).limit = 100) ∧
    (listLimitSchemaAccepts n = true ↔ 1 ≤ n ∧ n ≤ 100) ∧
    (n ≠ 0 → listCustomersQuery (some ⟨some n, none, none⟩) = [("limit", toString n)]) := by
  refine ⟨fun hn => ?_, ?_, fun hn => ?_⟩
  · have hz : n ≠ 0 := by omega
    simp [normalizePaginationParams, numOrDefault, hz]
    omega
  · simp [listLimitSchemaAccepts]
  · simp [listCustomersQuery, numTruthy, strTruthy, hn]

/-- C1 amended witness: at the concrete limit 500 the helper clamps to 100,
the schema rejects, and the query builder forwards 500. -/
theorem pagination_limit_behaviour_witness :
    (normalizePaginationParams (some ⟨some 500, none⟩) 100).limit = 100 ∧
    listCustomersQuery (some ⟨some 500, none, none⟩) = [("limit", "500")] := by
  refine ⟨(pagination_limit_behaviour 500).1 (by decide), ?_⟩
  have h := (pagination_limit_behaviour 500).2.2 (by decide)
  rw [h]
  decide

/-- C2: the single upstream request path classifies statuses in source order,
first match wins: 429 is a retryable rate-limit failure whose pause is the
Retry-After header parsed as seconds (30 for a header of 30) with the fixed
default of 60 when the header is absent; 401 and 403 are authentication
failures never marked retryable; any other non-2xx status is a generic
failure carrying the numeric status and the message or error field of the
parsed JSON body when available (exactly boom for a 500 whose body message is
boom), otherwise the fallback string API error followed by the status; 2xx is
the success path. -/
theorem classifyResponse_spec (status : Nat) (ra : Option String) (body : ErrorBody) :
    (∀ s : String, s.isEmpty = false →
      classifyResponse 429 (some s) body =
        RequestVerdict.failure (.rateLimitFailure "Rate limit exceeded" (jsParseInt s))) ∧
    (classifyResponse 429 none body =
      RequestVerdict.failure (.rateLimitFailure "Rate limit exceeded" (some 60))) ∧
    (jsParseInt "30" = some 30) ∧
    (∀ m sec, GorgiasFailure.retryable (.rateLimitFailure m sec) = true) ∧
    (status = 401 ∨ status = 403 →
      classifyResponse status ra body =
        RequestVerdict.failure
          (.authFailure "Authentication failed. Check your Gorgias credentials.")) ∧
    (∀ m, GorgiasFailure.retryable (.authFailure m) = false) ∧
    (status ≠ 429 → status ≠ 401 → status ≠ 403 → ¬(200 ≤ status ∧ status ≤ 299) →
      classifyResponse status ra body =
        RequestVerdict.failure (.apiFailure (extractApiErrorMessage body status) status)) ∧
    (extractApiErrorMessage (.parsed (some "boom") none) 500 = "boom") ∧
    (extractApiErrorMessage .unparseable status = "API error: " ++ toString status) ∧
    (∀ m st, GorgiasFailure.retryable (.apiFailure m st) = false) ∧
    (200 ≤ status → status ≤ 299 → status ≠ 204 →
      classifyResponse status ra body = RequestVerdict.successJson) ∧
    (classifyResponse 204 ra body = RequestVerdict.successNoBody) := by
  refine ⟨?_, rfl, by decide, fun m sec => rfl, ?_, fun m => rfl, ?_, rfl, rfl,
    fun m st => rfl, ?_, ?_⟩
  · intro s hs
    simp [classifyResponse, hs]
  · rintro (rfl | rfl) <;> simp [classifyResponse]
  · intro h1 h2 h3 h4
    simp [classifyResponse, h1, h2, h3, h4]
  · intro hl hr h204
    have h429 : status ≠ 429 := by omega
    have h401 : status ≠ 401 := by omega
    have h403 : status ≠ 403 := by omega
    simp [classifyResponse, h429, h401, h403, h204, hl, hr]
  · simp [classifyResponse]

/-- C2 witness: the concrete classifications promised by the spec scenarios —
429 with Retry-After 30 pauses 30, 403 is an authentication failure, a 500
with body message boom surfaces exactly boom, and 200 is a success. -/
theorem classifyResponse_spec_witness :
    classifyResponse 429 (some "30") ErrorBody.unparseable =
      RequestVerdict.failure (.rateLimitFailure "Rate limit exceeded" (some 30)) ∧
    classifyResponse 403 none ErrorBody.unparseable =
      RequestVerdict.failure
        (.authFailure "Authentication failed. Check your Gorgias credentials.") ∧
    classifyResponse 500 none (ErrorBody.parsed (some "boom") none) =
      RequestVerdict.failure (.apiFailure "boom" 500) ∧
    classifyResponse 200 none ErrorBody.unparseable = RequestVerdict.successJson := by
  have h429 := (classifyResponse_spec 429 (some "30") ErrorBody.unparseable).1 "30" (by decide)
  have h403 := (classifyResponse_spec 403 none ErrorBody.unparseable).2.2.2.2.1 (Or.inr rfl)
  have h500 := (classifyResponse_spec 500 none
      (ErrorBody.parsed (some "boom") none)).2.2.2.2.2.2.1
      (by decide) (by decide) (by decide) (by decide)
  have h200 := (classifyResponse_spec 200 none
      ErrorBody.unparseable).2.2.2.2.2.2.2.2.2.2.1 (by decide) (by decide) (by decide)
  refine ⟨?_, h403, ?_, h200⟩
  · rw [h429]
    decide
  · rw [h500]
    decide

/-- C6: for every entity kind, re-serializing the internal field names back to
wire names through the inverse of the wire-to-internal rename reproduces
exactly the declared set of wire field names (a permutation of the Raw
interface field list): the mapping never invents a field, and here it also
drops none; the internal names are pairwise distinct, so the inverse rename is
well defined. -/
theorem fieldTables_roundTrip :
    ∀ t ∈ entityFieldTables,
      (reserializedWireNames t.pairs).Perm t.rawFields ∧
      (t.pairs.map Prod.snd).Nodup ∧ (t.pairs.map Prod.fst).Nodup := by
  decide

/-- C6 witness: the ticket mapping reproduces the RawTicket field set. -/
theorem fieldTables_roundTrip_witness :
    (reserializedWireNames ticketFieldTable.pairs).Perm ticketFieldTable.rawFields :=
  (fieldTables_roundTrip ticketFieldTable (by decide)).1

/-- C7: an empty upstream page (empty data array, no next_cursor) maps to the
result with items equal to the empty list and nextCursor unset — on every list
operation (the shared mapping), in particular listTickets — and a 200 response
is classified to the success path, never to a failure. -/
theorem listOperations_empty_page (meta : Option GorgiasListMeta)
    (ra : Option String) (body : ErrorBody)
    (hc : meta.bind (fun m => m.next_cursor) = none) :
    listTicketsResult { data := [], meta := meta } =
      { items := [], nextCursor := none } ∧
    (∀ (β : Type) (f : RawTicket → β),
      listResultOf f { data := [], meta := meta } =
        { items := [], nextCursor := none }) ∧
    classifyResponse 200 ra body = RequestVerdict.successJson ∧
    (∀ e, classifyResponse 200 ra body ≠ RequestVerdict.failure e) := by
  have hcls : classifyResponse 200 ra body = RequestVerdict.successJson := by
    simp [classifyResponse]
  refine ⟨?_, ?_, hcls, ?_⟩
  · simp [listTicketsResult, listResultOf, hc]
  · intro β f
    simp [listResultOf, hc]
  · intro e h
    rw [hcls] at h
    exact RequestVerdict.noConfusion h

/-- C7 witness: the concrete empty page with no meta at all. -/
theorem listOperations_empty_page_witness :
    listTicketsResult { data := [], meta := none } =
      { items := [], nextCursor := none } ∧
    classifyResponse 200 none ErrorBody.unparseable = RequestVerdict.successJson := by
  have h := listOperations_empty_page none none ErrorBody.unparseable rfl
  exact ⟨h.1, h.2.2.1⟩

/-- C5: invoking the create-macro tool with an actions string that fails to
parse returns the isError envelope carrying the parse failure message
(prefixed Error:), issues no upstream client call, and — the handler being a
total function into the envelope type — never lets the failure escape to the
protocol runtime. -/
theorem createMacro_invalid_json (name : String) (intent language : Option String)
    (upstream : JsValue → Except GorgiasFailure JsValue) (msg : String)
    (parsedActions : Except String JsValue)
    (hp : parsedActions = Except.error msg) :
    (createMacroHandlerRun name intent language parsedActions upstream).1 =
      formatError (.plainError msg) ∧
    (createMacroHandlerRun name intent language parsedActions upstream).1.isError = true ∧
    formatErrorMessageOf (.plainError msg) = "Error: " ++ msg ∧
    (createMacroHandlerRun name intent language parsedActions upstream).2 = [] := by
  subst hp
  exact ⟨rfl, rfl, rfl, rfl⟩

/-- C5 witness: a concrete JSON.parse failure (the SyntaxError message for the
input not json) yields the isError envelope with no client call. -/
theorem createMacro_invalid_json_witness :
    (createMacroHandlerRun "welcome" none none
        (Except.error "Unexpected token (o) in JSON at position 1")
        (fun a => Except.ok a)).1.isError = true ∧
    (createMacroHandlerRun "welcome" none none
        (Except.error "Unexpected token (o) in JSON at position 1")
        (fun a => Except.ok a)).2 = [] := by
  have h := createMacro_invalid_json "welcome" none none (fun a => Except.ok a)
    "Unexpected token (o) in JSON at position 1"
    (Except.error "Unexpected token (o) in JSON at position 1") rfl
  exact ⟨h.2.1, h.2.2.2⟩

/-- C9: the formatter is a pure function of its inputs: two invocations with
the same data value, format flag, entity type and platform date oracle return
byte-identical output — the embedding is a function of exactly these
arguments, so there is no hidden state to diverge on, neither at the envelope
level nor at the markdown-text level. -/
theorem formatResponse_pure (toISO : JsValue → Option String)
    (d1 d2 : JsValue) (f1 f2 : ResponseFormat) (e1 e2 : String)
    (hd : d1 = d2) (hf : f1 = f2) (he : e1 = e2) :
    formatResponse toISO d1 f1 e1 = formatResponse toISO d2 f2 e2 ∧
    formatAsMarkdown toISO d1 e1 = formatAsMarkdown toISO d2 e2 := by
  subst hd
  subst hf
  subst he
  exact ⟨rfl, rfl⟩

/-- C9 witness: two concrete calls on the same paginated value agree. -/
theorem formatResponse_pure_witness :
    formatResponse (fun _ => none)
        (JsValue.obj [("items", JsValue.arr [])]) ResponseFormat.markdown "tickets" =
      formatResponse (fun _ => none)
        (JsValue.obj [("items", JsValue.arr [])]) ResponseFormat.markdown "tickets" :=
  (formatResponse_pure (fun _ => none)
    (JsValue.obj [("items", JsValue.arr [])]) (JsValue.obj [("items", JsValue.arr [])])
    ResponseFormat.markdown ResponseFormat.markdown "tickets" "tickets" rfl rfl rfl).1

/-- C8 counterexample: the formatter is not total — in markdown mode, a bare
array whose first element is null (a perfectly serializable value) reaches
Object.keys on null inside formatGenericTable and throws a TypeError instead
of returning renderable text. -/
theorem formatResponse_raises_on_null_element :
    formatResponse (fun _ => none) (JsValue.arr [JsValue.nullv])
        ResponseFormat.markdown "records" =
      Except.error (JsErr.typeError "Cannot convert undefined or null to object") := by
  rfl

/-- C8 amended: formatResponse never raises in json mode; in markdown mode it
never raises for primitive values, for bare objects, and for item lists (bare
arrays, or the items of a paginated envelope) rendered through the generic
table whose elements are all objects — but not for every serializable value:
a rendered list whose first element is null or undefined throws a TypeError
from Object.keys, and the entity-typed tables likewise access fields of their
elements, so the never-raises contract holds only on these shapes. -/
theorem formatResponse_total_cases (toISO : JsValue → Option String)
    (data : JsValue) (entityType : String) :
    (∃ r, formatResponse toISO data ResponseFormat.json entityType = Except.ok r) ∧
    (isGenericEntityType entityType = true → markdownSafeShape data = true →
      ∃ r, formatResponse toISO data ResponseFormat.markdown entityType =
        Except.ok r) := by
  constructor
  · exact ⟨ToolResponse.mk [ContentItem.mk "text" (jsonStringify data)] false, rfl⟩
  · intro hgen hsafe
    have hmd := formatAsMarkdown_isOk toISO data entityType hgen hsafe
    obtain ⟨s, hs⟩ := exists_ok_of_isOk _ hmd
    refine ⟨{ content := [{ type := "text", text := s }], isError := false }, ?_⟩
    have hdef : formatResponse toISO data ResponseFormat.markdown entityType =
        (formatAsMarkdown toISO data entityType).bind (fun text => Except.ok
          { content := [{ type := "text", text := text }], isError := false }) := rfl
    rw [hdef, hs]
    rfl

/-- C8 amended witness: a concrete array of one object renders in both modes
without raising. -/
theorem formatResponse_total_cases_witness :
    (formatResponse (fun _ => none) (JsValue.arr [JsValue.obj [("a", JsValue.num 1)]])
        ResponseFormat.json "records").isOk = true ∧
    (formatResponse (fun _ => none) (JsValue.arr [JsValue.obj [("a", JsValue.num 1)]])
        ResponseFormat.markdown "records").isOk = true := by
  have h := formatResponse_total_cases (fun _ => none)
    (JsValue.arr [JsValue.obj [("a", JsValue.num 1)]]) "records"
  obtain ⟨r1, h1⟩ := h.1
  obtain ⟨r2, h2⟩ := h.2 (by decide) (by decide)
  constructor
  · rw [h1]
    rfl
  · rw [h2]
    rfl

end GorgiasSpec
